import Mathlib

/-!
Verification of the go-proj binding layer (package `proj`, modern PROJ
generation, `proj.go`).

The native PROJ engine is an external collaborator reached through cgo.  We
embed it as an oracle (`Engine`) together with an explicit native-resource
state (`World`): the set of live execution-context ids, the set of live
CRS-object ids, and a trace of every native call issued, in order.  Each Go
function of the binding is translated line by line into a state-passing Lean
function over `World`.

IEEE-754 float64 values are embedded exactly as rationals: the binding layer
performs no floating-point arithmetic on coordinates (all arithmetic happens
inside the native engine), so every float64 value that flows through it is an
exactly representable rational and the embedding is faithful.
-/

namespace GoProj

/-- Exact embedding of float64 values (no float arithmetic occurs in the
binding layer, so each value is an exact rational). -/
abbrev F64 := ℚ

/-- Go's `math.MaxFloat64`, the largest finite float64:
`(2^53 - 1) * 2^971 = 1.7976931348623157e308`. -/
def maxFloat64 : F64 := (2 ^ 53 - 1) * 2 ^ 971

/-- `type Coord struct { X, Y float64; Z float64; T float64 }` -/
structure Coord where
  X : F64
  Y : F64
  Z : F64
  T : F64
  deriving DecidableEq

/-- `func XY(x, y float64) Coord { return Coord{X: x, Y: y, Z: 0, T: math.MaxFloat64} }` -/
def XY (x y : F64) : Coord :=
  { X := x, Y := y, Z := 0, T := maxFloat64 }

/-- A native pointer: `none` is NULL, `some id` a live allocation id. -/
abbrev Ptr := Option Nat

/-- One call across the cgo boundary into the native engine.  (The pure
error-code-to-string translation `proj_context_errno_string` is not traced;
no claim depends on it.) -/
inductive NativeCall where
  | contextCreate (ctx : Nat)
  | logLevel (ctx : Ptr)
  | projCreate (ctx : Ptr) (defn : String) (result : Ptr)
  | contextErrno (ctx : Ptr) (errno : Int)
  | projDestroy (obj : Ptr)
  | contextDestroy (ctx : Ptr)
  | normalizeForVisualization (ctx : Ptr) (obj : Ptr) (result : Ptr)
  | createCrsToCrsFromPj (ctx : Ptr) (src : Ptr) (dst : Ptr) (result : Ptr)
  | transArray (tr : Ptr) (n : Nat)
  deriving DecidableEq

/-- Native-side state: fresh-id counter, live execution contexts, live
CRS/transform objects, and the ordered trace of native calls. -/
structure World where
  nextId : Nat
  liveCtx : List Nat
  liveObj : List Nat
  calls : List NativeCall
  deriving DecidableEq

/-- Append one native call to the trace. -/
def World.log (w : World) (c : NativeCall) : World :=
  { w with calls := w.calls ++ [c] }

/-- Oracle for the native engine's observable choices (which definitions
parse, error codes, error-string translation, whether normalization
succeeds, the transform status and the in-place point mutation). -/
structure Engine where
  createOk : String → Bool
  createErrno : String → Int
  errnoString : Int → String
  normalizeOk : Nat → Bool
  normErrno : Int
  crsToCrsOk : Bool
  transStatus : Int
  transErrno : Int
  transFn : List Coord → List Coord

/-- `C.proj_context_create()`: allocates a fresh live context.  (Allocation
failure of the context itself is not modelled; the Go code never checks for
it and no claim concerns it.) -/
def projContextCreate (w : World) : World × Nat :=
  ({ w with
      nextId := w.nextId + 1
      liveCtx := w.liveCtx ++ [w.nextId]
      calls := w.calls ++ [.contextCreate w.nextId] }, w.nextId)

/-- `C.proj_create(ctx, defn)`: returns a fresh live CRS object, or NULL when
the engine rejects the definition. -/
def projCreate (e : Engine) (w : World) (ctx : Ptr) (defn : String) : World × Ptr :=
  if e.createOk defn then
    ({ w with
        nextId := w.nextId + 1
        liveObj := w.liveObj ++ [w.nextId]
        calls := w.calls ++ [.projCreate ctx defn (some w.nextId)] }, some w.nextId)
  else
    (w.log (.projCreate ctx defn none), none)

/-- `C.proj_destroy(obj)`: the object ceases to be live. -/
def projDestroy (w : World) (obj : Ptr) : World :=
  { w with
      liveObj := match obj with
        | some o => w.liveObj.erase o
        | none => w.liveObj
      calls := w.calls ++ [.projDestroy obj] }

/-- `C.proj_context_destroy(ctx)`: the context ceases to be live. -/
def projContextDestroy (w : World) (ctx : Ptr) : World :=
  { w with
      liveCtx := match ctx with
        | some c => w.liveCtx.erase c
        | none => w.liveCtx
      calls := w.calls ++ [.contextDestroy ctx] }

/-- `C.proj_normalize_for_visualization(ctx, obj)`: derives a fresh object
from a live one, or returns NULL (always NULL on a NULL input object, per the
collaborator contract: the engine cannot derive an object from NULL). -/
def projNormalizeForVisualization (e : Engine) (w : World) (ctx : Ptr) (obj : Ptr) :
    World × Ptr :=
  match obj with
  | some o =>
    if e.normalizeOk o then
      ({ w with
          nextId := w.nextId + 1
          liveObj := w.liveObj ++ [w.nextId]
          calls := w.calls ++ [.normalizeForVisualization ctx (some o) (some w.nextId)] },
       some w.nextId)
    else
      (w.log (.normalizeForVisualization ctx (some o) none), none)
  | none => (w.log (.normalizeForVisualization ctx none none), none)

/-- `C.proj_create_crs_to_crs_from_pj(ctx, src, dst, nil, nil)`. -/
def projCreateCrsToCrsFromPj (e : Engine) (w : World) (ctx src dst : Ptr) : World × Ptr :=
  if e.crsToCrsOk then
    ({ w with
        nextId := w.nextId + 1
        liveObj := w.liveObj ++ [w.nextId]
        calls := w.calls ++ [.createCrsToCrsFromPj ctx src dst (some w.nextId)] },
     some w.nextId)
  else
    (w.log (.createCrsToCrsFromPj ctx src dst none), none)

/-- `C.proj_trans_array(tr, PJ_FWD, n, ptr)`: transforms the batch in place
(possibly partially on failure) and returns a status code. -/
def projTransArray (e : Engine) (w : World) (tr : Ptr) (pts : List Coord) :
    World × List Coord × Int :=
  (w.log (.transArray tr pts.length), e.transFn pts, e.transStatus)

/-- `type Proj struct { p *C.PJ; ctx *C.PJ_CONTEXT; normalized bool }` -/
structure Proj where
  p : Ptr
  ctx : Ptr
  normalized : Bool
  deriving DecidableEq

/-- `func New(init string) (*Proj, error)` — translated line by line:
creates a context, sets the log level, calls `proj_create`; on NULL reads the
context errno and returns the translated message (the context is NOT
destroyed on this path); on success returns the handle owning both pointers.
(`runtime.SetFinalizer(p, free)` has no native effect at call time and is
not traced; the finalizer body is `free` below.) -/
def New (e : Engine) (w : World) (init : String) : World × Except String Proj :=
  let r0 := projContextCreate w
  let ctx := r0.2
  let w1 := r0.1.log (.logLevel (some ctx))
  let r1 := projCreate e w1 (some ctx) init
  match r1.2 with
  | none =>
    let errno := e.createErrno init
    let w2 := r1.1.log (.contextErrno (some ctx) errno)
    (w2, .error (e.errnoString errno))
  | some o => (r1.1, .ok { p := some o, ctx := some ctx, normalized := false })

/-- `func (p *Proj) Free()`: destroys the CRS object if present (nulling it),
then the context if present (nulling it). -/
def Free (w : World) (p : Proj) : World × Proj :=
  let s1 : World × Proj :=
    match p.p with
    | some o => (projDestroy w (some o), { p with p := none })
    | none => (w, p)
  match s1.2.ctx with
  | some c => (projContextDestroy s1.1 (some c), { s1.2 with ctx := none })
  | none => s1

/-- `func free(p *Proj) { p.Free() }` — the finalizer body, uncurried over
the world-and-handle pair so it can be iterated. -/
def free (s : World × Proj) : World × Proj :=
  Free s.1 s.2

/-- `func (p *Proj) NormalizeForVisualization() error` — translated line by
line.  Returns the updated world, the updated handle (Go mutates the
receiver in place), and `none` for success or `some msg` for an error. -/
def NormalizeForVisualization (e : Engine) (w : World) (p : Proj) :
    World × Proj × Option String :=
  if p.normalized then (w, p, none)
  else
    let r := projNormalizeForVisualization e w p.ctx p.p
    match r.2 with
    | none =>
      let errno := e.normErrno
      let w2 := r.1.log (.contextErrno p.ctx errno)
      (w2, p, some (e.errnoString errno))
    | some np =>
      let w2 := projDestroy r.1 p.p
      (w2, { p := some np, ctx := p.ctx, normalized := true }, none)

/-- Outcome of a `Transform` call: a returned `error` value (`ok` for nil,
`err` for non-nil) or a Go runtime panic. -/
inductive TransformResult where
  | ok
  | err (msg : String)
  | crash (msg : String)
  deriving DecidableEq

/-- `func (p *Proj) Transform(dst *Proj, pts []Coord) error` — translated
line by line.  The receiver and `dst` are `*Proj` pointers, so both are
`Option Proj` (`none` is a nil pointer); `pts` is a Go slice, whose nil and
empty states are distinct (`none` vs `some []`).  After the nil checks the
code builds a crs-to-crs transform and then evaluates `&pts[0]`; on a
non-nil empty slice that indexing is a Go runtime panic (index out of
range), modelled as `.crash`. -/
def Transform (e : Engine) (w : World) (p dst : Option Proj)
    (pts : Option (List Coord)) : World × Option (List Coord) × TransformResult :=
  match p with
  | none => (w, pts, .err "missing/invalid projection")
  | some p =>
    match dst with
    | none => (w, pts, .err "missing/invalid dst projection")
    | some dst =>
      match pts with
      | none => (w, none, .ok)
      | some l =>
        let rtr := projCreateCrsToCrsFromPj e w p.ctx p.p dst.p
        if l.isEmpty then
          (rtr.1, some l, .crash "index out of range")
        else
          let rt := projTransArray e rtr.1 rtr.2 l
          if rt.2.2 ≠ 0 then
            let errno := e.transErrno
            let w2 := rt.1.log (.contextErrno p.ctx errno)
            if errno = 0 then (w2, some rt.2.1, .err "unknown error")
            else (w2, some rt.2.1, .err (e.errnoString errno))
          else (rt.1, some rt.2.1, .ok)

/-- `type Transformer struct { Src *Proj; Dst *Proj }` -/
structure Transformer where
  Src : Option Proj
  Dst : Option Proj
  deriving DecidableEq

/-- `func NewTransformer(initSrc, initDst string) (Transformer, error)` —
constructs the source handle, then the destination handle; if either `New`
fails the error is returned as is (no `Free` is called on the other
handle). -/
def NewTransformer (e : Engine) (w : World) (initSrc initDst : String) :
    World × Except String Transformer :=
  let r1 := New e w initSrc
  match r1.2 with
  | .error err => (r1.1, .error err)
  | .ok src =>
    let r2 := New e r1.1 initDst
    match r2.2 with
    | .error err => (r2.1, .error err)
    | .ok dst => (r2.1, .ok { Src := some src, Dst := some dst })

/-- The handle invariant of the spec: the two native pointers are either both
live or both null. -/
def ptrInvariant (p : Proj) : Prop :=
  p.p.isSome = p.ctx.isSome

/-- The definition strings handed to the native `proj_create` call, in
order, as recorded by the trace. -/
def passedDefs (w : World) : List String :=
  w.calls.filterMap fun c =>
    match c with
    | .projCreate _ d _ => some d
    | _ => none

/-- Whether a native call releases a native resource. -/
def isDestroyCall (c : NativeCall) : Bool :=
  match c with
  | .projDestroy _ => true
  | .contextDestroy _ => true
  | _ => false

/-- Concrete engine for witnesses: every nonempty definition parses, a
failed create reports errno 3, normalization always succeeds, transforms
succeed and leave points unchanged. -/
def e0 : Engine :=
  { createOk := fun s => !s.isEmpty
    createErrno := fun _ => 3
    errnoString := fun n => "proj error " ++ toString n
    normalizeOk := fun _ => true
    normErrno := 5
    crsToCrsOk := true
    transStatus := 0
    transErrno := 0
    transFn := id }

/-- Engine whose native normalize-for-visualization call always fails. -/
def e1 : Engine :=
  { e0 with normalizeOk := fun _ => false }

/-- The pristine native world. -/
def w0 : World := ⟨0, [], [], []⟩

/-- A handle as produced by a first successful `New` on `w0`. -/
def pRaw : Proj := ⟨some 1, some 0, false⟩

/-- An already-normalized handle. -/
def pN : Proj := ⟨some 1, some 0, true⟩

/-- Modelled from the spec: the whitespace trimming (Go `strings.TrimSpace`)
that the spec says `New` applies to the definition string before the native
create call.  The source of `New` performs no such trimming; this definition
exists only to compare the spec's claimed behavior with the source's. -/
def trimSpace (s : String) : String :=
  ⟨((s.data.dropWhile Char.isWhitespace).reverse.dropWhile Char.isWhitespace).reverse⟩

/-- World after one successful `New` on `w0`. -/
def wA : World := (New e0 w0 "epsg:4326").1

/-- World after two successful `New`s on `w0`. -/
def wAB : World := (New e0 wA "epsg:25832").1

/-- The handle produced by the second successful `New` on `w0`. -/
def hB : Proj := ⟨some 3, some 2, false⟩

/-- After `Free`, both native pointers of the handle are nulled (the
`normalized` flag is untouched). -/
theorem Free_result_closed (w : World) (p : Proj) :
    (Free w p).2 = ⟨none, none, p.normalized⟩ := by
  obtain ⟨pp, pc, pn⟩ := p
  rcases pp with _ | o <;> rcases pc with _ | c <;>
    simp [Free, projDestroy, projContextDestroy]

/-- A second `Free` (uncurried as the finalizer body `free`) is the
identity: both pointers are already null, so no native destroy is issued. -/
theorem free_free (s : World × Proj) : free (free s) = free s := by
  obtain ⟨w, p⟩ := s
  show Free (Free w p).1 (Free w p).2 = Free w p
  rw [Free_result_closed w p]
  show ((Free w p).1, (⟨none, none, p.normalized⟩ : Proj)) = Free w p
  rw [← Free_result_closed w p]

/-- Iterating `free` after a `free` changes nothing. -/
theorem free_iterate (n : Nat) (s : World × Proj) : free^[n] (free s) = free s := by
  induction n with
  | zero => rfl
  | succ k ih => rw [Function.iterate_succ_apply, free_free, ih]

/-- A `NormalizeForVisualization` call that returns success leaves the
handle's `normalized` flag set. -/
theorem normalize_success_flag (e : Engine) (w : World) (p : Proj)
    (h : (NormalizeForVisualization e w p).2.2 = none) :
    (NormalizeForVisualization e w p).2.1.normalized = true := by
  by_cases hn : p.normalized
  · simp [NormalizeForVisualization, hn]
  · rcases hr : (projNormalizeForVisualization e w p.ctx p.p).2 with _ | np
    · simp [NormalizeForVisualization, hn, hr] at h
    · simp [NormalizeForVisualization, hn, hr]

/-- A failed native normalize call only logs itself: it allocates and
destroys nothing. -/
theorem projNormalize_failure_world (e : Engine) (w : World) (ctx obj : Ptr)
    (hfail : (projNormalizeForVisualization e w ctx obj).2 = none) :
    (projNormalizeForVisualization e w ctx obj).1 =
      w.log (.normalizeForVisualization ctx obj none) := by
  rcases obj with _ | o
  · rfl
  · by_cases hok : e.normalizeOk o
    · simp [projNormalizeForVisualization, hok] at hfail
    · simp [projNormalizeForVisualization, hok]

/-- Claim C1 (code_bug evidence): with two successfully constructed handles
(`pRaw` from the first `New`, `hB` from the second), a nil point collection
is indeed a no-op success with no native call and no state change, but a
non-nil EMPTY point collection is not: `Transform` first invokes the native
engine (`proj_create_crs_to_crs_from_pj` is traced, with a fresh object id
4) and then panics taking `&pts[0]` on a slice of length 0 — it neither
returns success nor avoids the native engine, contradicting the claim. -/
theorem transform_empty_slice_crashes :
    (New e0 w0 "epsg:4326").2 = Except.ok pRaw ∧
    (New e0 wA "epsg:25832").2 = Except.ok hB ∧
    Transform e0 wAB (some pRaw) (some hB) none = (wAB, none, .ok) ∧
    (Transform e0 wAB (some pRaw) (some hB) (some [])).2.2 = .crash "index out of range" ∧
    (Transform e0 wAB (some pRaw) (some hB) (some [])).1.calls =
      wAB.calls ++ [.createCrsToCrsFromPj (some 0) (some 1) (some 3) (some 4)] :=
  ⟨rfl, rfl, by decide, by decide, by decide⟩

/-- Claim C2 (counterexample): on the failed construction `New ""` the
constructor returns an error and no handle, but the execution context it
allocated (id 0) is still live after the return and no destroy call of any
kind was issued — the context is NOT released on the failure path,
contradicting the claim. -/
theorem new_failure_context_left_live :
    (New e0 w0 "").2 = Except.error "proj error 3" ∧
    (New e0 w0 "").1.liveCtx = [0] ∧
    List.filter isDestroyCall (New e0 w0 "").1.calls = [] :=
  ⟨rfl, by decide, by decide⟩

/-- Claim C2 (amended): for every definition string on which the native
create call fails, `New` returns a translated error and no handle, but it
does not release the execution context it allocated: the context stays in
the live set and the only native calls issued are context-create, log-level,
the failed create, and the errno read — no destroy.  (No finalizer is
registered on this path either, so the context is leaked.) -/
theorem new_failure_no_context_destroy (e : Engine) (w : World) (s : String)
    (h : e.createOk s = false) :
    New e w s =
      ({ w with
          nextId := w.nextId + 1
          liveCtx := w.liveCtx ++ [w.nextId]
          calls := w.calls ++
            [.contextCreate w.nextId, .logLevel (some w.nextId),
             .projCreate (some w.nextId) s none,
             .contextErrno (some w.nextId) (e.createErrno s)] },
       .error (e.errnoString (e.createErrno s))) := by
  simp [New, projContextCreate, projCreate, World.log, h, List.append_assoc]

/-- Witness for the amended C2 theorem at the concrete failing input `""`. -/
theorem new_failure_no_context_destroy_witness :
    New e0 w0 "" =
      ({ w0 with
          nextId := w0.nextId + 1
          liveCtx := w0.liveCtx ++ [w0.nextId]
          calls := w0.calls ++
            [.contextCreate w0.nextId, .logLevel (some w0.nextId),
             .projCreate (some w0.nextId) "" none,
             .contextErrno (some w0.nextId) (e0.createErrno "")] },
       .error (e0.errnoString (e0.createErrno ""))) :=
  new_failure_no_context_destroy e0 w0 "" (by decide)

/-- Claim C3 (counterexample): `New` does not trim the definition string.
On the input `" epsg:4326 "` the definition handed to the native create call
is `" epsg:4326 "` itself, while on the trimmed input it is `"epsg:4326"`;
the two calls pass different definitions to the native engine,
contradicting the claim. -/
theorem new_trim_counterexample :
    trimSpace " epsg:4326 " = "epsg:4326" ∧
    passedDefs (New e0 w0 " epsg:4326 ").1 = [" epsg:4326 "] ∧
    passedDefs (New e0 w0 (trimSpace " epsg:4326 ")).1 = ["epsg:4326"] ∧
    passedDefs (New e0 w0 " epsg:4326 ").1 ≠
      passedDefs (New e0 w0 (trimSpace " epsg:4326 ")).1 :=
  ⟨by decide, by decide, by decide, by decide⟩

/-- Claim C3 (amended): for every definition string, `New` passes the string
verbatim — unmodified and in particular untrimmed — to the native create
call; any tolerance of surrounding whitespace is the native engine's own. -/
theorem new_passes_definition_verbatim (e : Engine) (w : World) (s : String) :
    passedDefs (New e w s).1 = passedDefs w ++ [s] := by
  by_cases h : e.createOk s <;>
    simp [New, projContextCreate, projCreate, World.log, passedDefs, h,
      List.filterMap_append]

/-- Claim C4 (counterexample): when the first definition constructs
successfully and the second fails, `NewTransformer` returns the error but
the first handle (object id 1, context id 0) is still fully live and no
native destroy call was issued — the first handle is not released before
returning, contradicting the claim.  (Context id 2 of the failed second
construction is also still live.) -/
theorem newTransformer_first_handle_left_live :
    (NewTransformer e0 w0 "epsg:4326" "").2 = Except.error "proj error 3" ∧
    (NewTransformer e0 w0 "epsg:4326" "").1.liveCtx = [0, 2] ∧
    (NewTransformer e0 w0 "epsg:4326" "").1.liveObj = [1] ∧
    List.filter isDestroyCall (NewTransformer e0 w0 "epsg:4326" "").1.calls = [] :=
  ⟨rfl, by decide, by decide, by decide⟩

/-- Claim C4 (amended): for every pair of definition strings where the first
constructs successfully (yielding the handle with object `w.nextId + 1` and
context `w.nextId`) and the second fails, `NewTransformer` returns the
second construction's translated error without releasing the first handle:
both of its native pointers remain in the live sets and no destroy call is
issued anywhere in the run (the handle is reclaimed only by its GC
finalizer). -/
theorem newTransformer_second_failure_no_release (e : Engine) (w : World) (s1 s2 : String)
    (h1 : e.createOk s1 = true) (h2 : e.createOk s2 = false) :
    (New e w s1).2 = .ok ⟨some (w.nextId + 1), some w.nextId, false⟩ ∧
    (NewTransformer e w s1 s2).2 = .error (e.errnoString (e.createErrno s2)) ∧
    (NewTransformer e w s1 s2).1.liveCtx = w.liveCtx ++ [w.nextId, w.nextId + 2] ∧
    (NewTransformer e w s1 s2).1.liveObj = w.liveObj ++ [w.nextId + 1] ∧
    List.filter isDestroyCall (NewTransformer e w s1 s2).1.calls =
      List.filter isDestroyCall w.calls := by
  refine ⟨?_, ?_, ?_, ?_, ?_⟩ <;>
    simp [NewTransformer, New, projContextCreate, projCreate, World.log, h1, h2,
      isDestroyCall, List.filter_append]

/-- Witness for the amended C4 theorem at the concrete inputs
`"epsg:4326"` (succeeds) and `""` (fails). -/
theorem newTransformer_second_failure_no_release_witness :
    (New e0 w0 "epsg:4326").2 = .ok ⟨some (w0.nextId + 1), some w0.nextId, false⟩ ∧
    (NewTransformer e0 w0 "epsg:4326" "").2 = .error (e0.errnoString (e0.createErrno "")) ∧
    (NewTransformer e0 w0 "epsg:4326" "").1.liveCtx = w0.liveCtx ++ [w0.nextId, w0.nextId + 2] ∧
    (NewTransformer e0 w0 "epsg:4326" "").1.liveObj = w0.liveObj ++ [w0.nextId + 1] ∧
    List.filter isDestroyCall (NewTransformer e0 w0 "epsg:4326" "").1.calls =
      List.filter isDestroyCall w0.calls :=
  newTransformer_second_failure_no_release e0 w0 "epsg:4326" "" (by decide) (by decide)

/-- Claim C5: for every unnormalized handle on which the native
normalize-for-visualization call fails, `NormalizeForVisualization` returns
the handle exactly as it was (same CRS object pointer, same context,
`normalized` still false), returns the translated error message, and
destroys nothing (the live object and context sets are unchanged). -/
theorem normalizeForVisualization_failure_preserves_handle (e : Engine) (w : World) (p : Proj)
    (hn : p.normalized = false)
    (hfail : (projNormalizeForVisualization e w p.ctx p.p).2 = none) :
    (NormalizeForVisualization e w p).2.1 = p ∧
    (NormalizeForVisualization e w p).2.2 = some (e.errnoString e.normErrno) ∧
    (NormalizeForVisualization e w p).1.liveObj = w.liveObj ∧
    (NormalizeForVisualization e w p).1.liveCtx = w.liveCtx := by
  have hw := projNormalize_failure_world e w p.ctx p.p hfail
  simp [NormalizeForVisualization, hn, hfail, hw, World.log]

/-- Witness for C5: the always-failing engine `e1` on the live handle
`pRaw`. -/
theorem normalizeForVisualization_failure_preserves_handle_witness :
    (NormalizeForVisualization e1 w0 pRaw).2.1 = pRaw ∧
    (NormalizeForVisualization e1 w0 pRaw).2.2 = some (e1.errnoString e1.normErrno) ∧
    (NormalizeForVisualization e1 w0 pRaw).1.liveObj = w0.liveObj ∧
    (NormalizeForVisualization e1 w0 pRaw).1.liveCtx = w0.liveCtx :=
  normalizeForVisualization_failure_preserves_handle e1 w0 pRaw rfl rfl

/-- Claim C6: `NormalizeForVisualization` is idempotent.  On an
already-normalized handle it returns success immediately with no native
call and no state change; and after any successful call, a second call is
exactly such a no-op, so normalizing twice yields the same world and handle
as normalizing once. -/
theorem normalizeForVisualization_idempotent (e : Engine) (w : World) (p : Proj) :
    (p.normalized = true → NormalizeForVisualization e w p = (w, p, none)) ∧
    ∀ w' p', NormalizeForVisualization e w p = (w', p', none) →
      NormalizeForVisualization e w' p' = (w', p', none) := by
  constructor
  · intro h
    simp [NormalizeForVisualization, h]
  · intro w' p' h
    have hf : p'.normalized = true := by
      have hflag := normalize_success_flag e w p (by rw [h])
      rwa [h] at hflag
    simp [NormalizeForVisualization, hf]

/-- Witness for C6: the already-normalized handle `pN` is a no-op, and a
second normalization after a successful normalization of `pRaw` changes
nothing. -/
theorem normalizeForVisualization_idempotent_witness :
    NormalizeForVisualization e0 w0 pN = (w0, pN, none) ∧
    NormalizeForVisualization e0 (NormalizeForVisualization e0 w0 pRaw).1
        (NormalizeForVisualization e0 w0 pRaw).2.1 =
      ((NormalizeForVisualization e0 w0 pRaw).1,
       (NormalizeForVisualization e0 w0 pRaw).2.1, none) :=
  ⟨(normalizeForVisualization_idempotent e0 w0 pN).1 rfl,
   (normalizeForVisualization_idempotent e0 w0 pRaw).2 _ _ rfl⟩

/-- Claim C7: `Free` destroys the CRS object if present, then the context if
present — in that order, as the trace shows — and nulls both pointers; and
any number of further `Free` calls (including via the finalizer body `free`)
is a no-op: no state change and no further native call, hence no
double-free. -/
theorem Free_idempotent (w : World) (p : Proj) :
    (Free w p).2 = ⟨none, none, p.normalized⟩ ∧
    (Free w p).1.calls = w.calls ++
      ((match p.p with
        | some o => [NativeCall.projDestroy (some o)]
        | none => []) ++
       (match p.ctx with
        | some c => [NativeCall.contextDestroy (some c)]
        | none => [])) ∧
    ∀ n, free^[n] (Free w p) = Free w p := by
  refine ⟨Free_result_closed w p, ?_, ?_⟩
  · obtain ⟨pp, pc, pn⟩ := p
    rcases pp with _ | o <;> rcases pc with _ | c <;>
      simp [Free, projDestroy, projContextDestroy]
  · intro n
    have h : Free w p = free (w, p) := rfl
    rw [h, free_iterate]

/-- Claim C8: a `Transform` call with a nil source handle fails immediately
with "missing/invalid projection", a call with a nil destination handle
fails immediately with "missing/invalid dst projection", in both cases with
no native call and no state change, and the two error messages are
distinct. -/
theorem transform_missing_handle_fails_fast (e : Engine) (w : World) (q : Proj)
    (dst : Option Proj) (pts : Option (List Coord)) :
    Transform e w none dst pts = (w, pts, .err "missing/invalid projection") ∧
    Transform e w (some q) none pts = (w, pts, .err "missing/invalid dst projection") ∧
    TransformResult.err "missing/invalid projection" ≠
      TransformResult.err "missing/invalid dst projection" :=
  ⟨rfl, rfl, by decide⟩

/-- Claim C9: every handle-producing operation preserves the invariant that
the two native pointers are both live or both null: a handle returned by a
successful `New` satisfies it, the result of `Free` satisfies it, and
`NormalizeForVisualization` preserves it. -/
theorem pointer_pair_invariant_preserved (e : Engine) (w : World) (p : Proj) (s : String)
    (h : ptrInvariant p) :
    (∀ q, (New e w s).2 = .ok q → ptrInvariant q) ∧
    ptrInvariant (Free w p).2 ∧
    ptrInvariant (NormalizeForVisualization e w p).2.1 := by
  refine ⟨?_, ?_, ?_⟩
  · intro q hq
    by_cases hc : e.createOk s
    · simp [New, projContextCreate, projCreate, World.log, hc] at hq
      rw [← hq]
      rfl
    · simp [New, projContextCreate, projCreate, World.log, hc] at hq
  · rw [Free_result_closed]
    rfl
  · by_cases hn : p.normalized
    · simpa [NormalizeForVisualization, hn] using h
    · rcases hpp : p.p with _ | o
      · simp [NormalizeForVisualization, projNormalizeForVisualization, hn, hpp]
        exact h
      · by_cases hok : e.normalizeOk o
        · have hctx : p.ctx.isSome = true := by
            rw [← h, hpp]
            rfl
          simp [NormalizeForVisualization, projNormalizeForVisualization, hn, hpp, hok,
            ptrInvariant, hctx]
        · simp [NormalizeForVisualization, projNormalizeForVisualization, hn, hpp, hok]
          exact h

/-- Witness for C9 at the live handle `pRaw` (its invariant holds by
computation). -/
theorem pointer_pair_invariant_preserved_witness :
    ptrInvariant (Free w0 pRaw).2 :=
  (pointer_pair_invariant_preserved e0 w0 pRaw "epsg:4326" rfl).2.1

/-- Claim C10: `XY x y` returns a coordinate with `X = x`, `Y = y`, `Z = 0`
and `T = maxFloat64`, where `maxFloat64` is the largest finite float64
`(2^53 - 1) * 2^971` (Go's `math.MaxFloat64`), a nonzero sentinel; a `Coord`
built directly with a zero `T` carries time 0 instead. -/
theorem XY_time_sentinel (x y z : F64) :
    XY x y = { X := x, Y := y, Z := 0, T := maxFloat64 } ∧
    maxFloat64 = (2 ^ 53 - 1) * 2 ^ 971 ∧
    maxFloat64 ≠ 0 ∧
    (Coord.mk x y z 0).T = 0 :=
  ⟨rfl, rfl, by norm_num [maxFloat64], rfl⟩

end GoProj
